import Mathlib

/-!
Shallow embedding of the incus instance-placement scriptlet engine
(package `scriptlet`, function `InstancePlacementRun` and the builtin
closures it installs), together with theorems checking the natural-language
specification against it.

Machine integers are modelled as `Nat` with explicit bounds where overflow
matters; Go's `(value, error)` pairs become `Except String _` or explicit
`Option` pairs mirroring the source's return sites.
-/

/-- The fields of `db.NodeInfo` that the placement engine reads: the stable
member name and the network address used for remote connections. -/
structure NodeInfo where
  name : String
  address : String
deriving DecidableEq, Repr

/-- Abstract payload standing for `api.Resources`; the engine forwards it
without inspecting it. -/
structure Resources where
  payload : Nat
deriving DecidableEq, Repr

/-- Abstract payload standing for `api.ClusterMemberState`; the engine
forwards it without inspecting it. -/
structure MemberState where
  payload : Nat
deriving DecidableEq, Repr

/-- The sandbox (starlark) values the engine's contracts mention: the
no-value result, strings, and marshalled host payloads. -/
inductive StarValue where
  | noneValue
  | str (s : String)
  | resourcesVal (r : Resources)
  | stateVal (st : MemberState)
deriving DecidableEq, Repr

/-- The scan loop of `setTargetFunc` (part_000 lines 42-47): index of the
first candidate whose `Name` equals `memberName`, if any. -/
def findMemberIdx (memberName : String) : List NodeInfo → Option Nat
  | [] => none
  | m :: rest =>
    if m.name = memberName then some 0
    else (findMemberIdx memberName rest).map (· + 1)

/-- One invocation of the `set_target` builtin (part_000 lines 34-57).
`targetMember` is the closure variable shared with `InstancePlacementRun`;
the result is the new value of that variable paired with the error returned
to the interpreter (`none` when the builtin returns starlark `None`
successfully). The loop assigns `targetMember` only on a match, and the
error branch tests the (possibly previously set) closure variable. -/
def setTargetCall (candidateMembers : List NodeInfo) (targetMember : Option Nat)
    (memberName : String) : Option Nat × Option String :=
  let targetMember :=
    match findMemberIdx memberName candidateMembers with
    | some i => some i
    | none => targetMember
  match targetMember with
  | none => (none, some ("Invalid member name: " ++ memberName))
  | some i => (some i, none)

theorem findMemberIdx_lt {memberName : String} :
    ∀ {cands : List NodeInfo} {i : Nat}, findMemberIdx memberName cands = some i →
      i < cands.length := by
  intro cands
  induction cands with
  | nil => intro i h; simp [findMemberIdx] at h
  | cons m rest ih =>
    intro i h
    by_cases hm : m.name = memberName
    · simp [findMemberIdx, hm] at h
      simp [← h]
    · simp only [findMemberIdx, hm, if_neg, ite_false, Option.map_eq_some'] at h
      obtain ⟨j, hj, hji⟩ := h
      have := ih hj
      simp only [List.length_cons]
      omega

theorem findMemberIdx_name {memberName : String} :
    ∀ {cands : List NodeInfo} {i : Nat} (h : findMemberIdx memberName cands = some i),
      (cands.get ⟨i, findMemberIdx_lt h⟩).name = memberName := by
  intro cands
  induction cands with
  | nil => intro i h; simp [findMemberIdx] at h
  | cons m rest ih =>
    intro i h
    by_cases hm : m.name = memberName
    · have hi : i = 0 := by simp [findMemberIdx, hm] at h; omega
      subst hi
      simp [hm]
    · have h' := h
      simp only [findMemberIdx, hm, ite_false, Option.map_eq_some'] at h'
      obtain ⟨j, hj, hji⟩ := h'
      subst hji
      simpa using ih hj

theorem findMemberIdx_none {memberName : String} :
    ∀ {cands : List NodeInfo}, findMemberIdx memberName cands = none ↔
      ∀ m ∈ cands, m.name ≠ memberName := by
  intro cands
  induction cands with
  | nil => simp [findMemberIdx]
  | cons m rest ih =>
    by_cases hm : m.name = memberName
    · simp [findMemberIdx, hm]
    · simp [findMemberIdx, hm, ih]

/-- Host operations available to the member-lookup builtins, keyed the way
the source invokes them: the local server name (`s.ServerName`), the local
readers (`resources.GetResources`, `cluster.MemberState`), the connection
attempt to a member address (`cluster.Connect`) and the remote readers
(`client.GetServerResources`, `client.GetClusterMemberState`), keyed by the
address the client was connected to. -/
structure MemberEnv where
  serverName : String
  localResources : Except String Resources
  localState : Except String MemberState
  connect : String → Except String Unit
  remoteResources : String → Except String Resources
  remoteState : String → Except String MemberState

/-- The `get_cluster_member_resources` builtin (part_000 lines 59-106):
local read when the name is the local server, otherwise remote read via a
connection to the first matching candidate's address; an unknown name
returns the string value "Invalid member name" with no error. Marshalling
of the payload is the injection `StarValue.resourcesVal`. -/
def getClusterMemberResources (env : MemberEnv) (candidateMembers : List NodeInfo)
    (memberName : String) : Except String StarValue :=
  if memberName = env.serverName then
    match env.localResources with
    | .error e => .error e
    | .ok r => .ok (.resourcesVal r)
  else
    match findMemberIdx memberName candidateMembers with
    | none => .ok (.str "Invalid member name")
    | some i =>
      match candidateMembers.get? i with
      | none => .ok (.str "Invalid member name")
      | some m =>
        match env.connect m.address with
        | .error e => .error e
        | .ok _ =>
          match env.remoteResources m.address with
          | .error e => .error e
          | .ok r => .ok (.resourcesVal r)

/-- The `get_cluster_member_state` builtin (part_000 lines 108-155): the
same dual local/remote dispatch as `get_cluster_member_resources`,
returning member state instead of hardware resources. -/
def getClusterMemberState (env : MemberEnv) (candidateMembers : List NodeInfo)
    (memberName : String) : Except String StarValue :=
  if memberName = env.serverName then
    match env.localState with
    | .error e => .error e
    | .ok st => .ok (.stateVal st)
  else
    match findMemberIdx memberName candidateMembers with
    | none => .ok (.str "Invalid member name")
    | some i =>
      match candidateMembers.get? i with
      | none => .ok (.str "Invalid member name")
      | some m =>
        match env.connect m.address with
        | .error e => .error e
        | .ok _ =>
          match env.remoteState m.address with
          | .error e => .error e
          | .ok st => .ok (.stateVal st)

/-- Numeric value of a digit list, most significant first. -/
def digitsToNat (l : List Char) : Nat :=
  l.foldl (fun a c => a * 10 + (c.toNat - 48)) 0

/-- Decimal parse of a character list: nonempty, all digits. -/
def parseDecimal (l : List Char) : Option Nat :=
  if !l.isEmpty && l.all Char.isDigit then some (digitsToNat l) else none

/-- Model of Go `strconv.ParseUint(s, 10, 64)`: a nonempty all-digit string
whose value fits in 64 bits; no sign prefix is permitted. -/
def parseUint64 (s : String) : Except String Nat :=
  if !s.data.isEmpty && s.data.all Char.isDigit then
    if digitsToNat s.data < 2 ^ 64 then .ok (digitsToNat s.data)
    else .error "value out of range"
  else .error "invalid syntax"

/-- Split a character list on a separator character; the separator is
dropped and empty groups are kept. -/
def splitOnChar (sep : Char) : List Char → List (List Char)
  | [] => [[]]
  | c :: rest =>
    if c = sep then [] :: splitOnChar sep rest
    else
      match splitOnChar sep rest with
      | [] => [[c]]
      | g :: gs => (c :: g) :: gs

/-- Modelled from the spec: one comma-separated chunk of a CPU-identifier
set, either a single identifier or an inclusive range such as "0-3"
(`resources.ParseCpuset` is not under src/). -/
def parseCpusetChunk (chunk : List Char) : Except String (List Nat) :=
  match splitOnChar '-' chunk with
  | [a] =>
    match parseDecimal a with
    | some n => .ok [n]
    | none => .error "invalid cpuset value"
  | [a, b] =>
    match parseDecimal a, parseDecimal b with
    | some x, some y =>
      if x ≤ y then .ok ((List.range (y - x + 1)).map (· + x))
      else .error "invalid cpuset range"
    | _, _ => .error "invalid cpuset value"
  | _ => .error "invalid cpuset value"

/-- Concatenation of the chunks of a CPU-identifier set; the first
malformed chunk's error wins. -/
def parseCpusetChunks : List (List Char) → Except String (List Nat)
  | [] => .ok []
  | c :: rest =>
    match parseCpusetChunk c, parseCpusetChunks rest with
    | .ok ids, .ok more => .ok (ids ++ more)
    | .error e, _ => .error e
    | _, .error e => .error e

/-- Modelled from the spec: `resources.ParseCpuset` is not under src/. The
spec says a CPU-limit value that is not a plain integer is parsed "as a
CPU-identifier set" — comma-separated identifiers or ranges, e.g.
"0,2,4,6" — whose cardinality becomes the core count. -/
def parseCpuset (s : String) : Except String (List Nat) :=
  if s.data.isEmpty then .error "invalid cpuset"
  else parseCpusetChunks (splitOnChar ',' s.data)

/-- Byte-size unit suffixes with their multipliers: binary (powers of 1024)
and decimal (powers of 1000) units, a bare byte unit, and no unit. -/
def byteSizeSuffixes : List (List Char × Nat) :=
  [("KiB".data, 1024), ("MiB".data, 1024 ^ 2), ("GiB".data, 1024 ^ 3),
   ("TiB".data, 1024 ^ 4), ("PiB".data, 1024 ^ 5), ("EiB".data, 1024 ^ 6),
   ("kB".data, 1000), ("MB".data, 1000 ^ 2), ("GB".data, 1000 ^ 3),
   ("TB".data, 1000 ^ 4), ("PB".data, 1000 ^ 5), ("EB".data, 1000 ^ 6),
   ("B".data, 1), ([], 1)]

/-- The prefix of `l` that remains when `suf` is a suffix of `l`. -/
def stripSuffix (suf l : List Char) : Option (List Char) :=
  if suf.length ≤ l.length && l.drop (l.length - suf.length) == suf then
    some (l.take (l.length - suf.length))
  else none

/-- First suffix whose removal leaves a decimal count. -/
def parseByteSizeAux : List (List Char × Nat) → List Char → Option Nat
  | [], _ => none
  | (suf, mult) :: rest, l =>
    match stripSuffix suf l with
    | some numPart =>
      match parseDecimal numPart with
      | some n => some (n * mult)
      | none => parseByteSizeAux rest l
    | none => parseByteSizeAux rest l

/-- Modelled from the spec: `units.ParseByteSizeString` is not under src/.
A byte-size string is a decimal count followed by an optional unit suffix;
anything else is a parse error. -/
def parseByteSizeString (s : String) : Except String Nat :=
  match parseByteSizeAux byteSizeSuffixes s.data with
  | some n => .ok n
  | none => .error ("Invalid value: " ++ s)

/-- Modelled from the spec: the fixed virtual-machine default core count
(`qemudefault.CPUCores` is not under src/). -/
def qemudefaultCPUCores : Nat := 1

/-- Modelled from the spec: the virtual-machine default memory size string
(`qemudefault.MemSize` is not under src/). -/
def qemudefaultMemSize : String := "1GiB"

/-- Modelled from the spec: the type-specific default block size applied to
a virtual machine's root disk when the root-disk device carries no size
(`storageDrivers.DefaultBlockSize` is not under src/). -/
def defaultBlockSize : String := "10GiB"

/-- Instance type of a placement request (`api.InstanceType`): container or
virtual machine (`api.InstanceTypeVM`). -/
inductive InstanceType where
  | container
  | vm
deriving DecidableEq, Repr

/-- The fields of `apiScriptlet.InstancePlacement` read by
`getInstanceResourcesFunc`: the configuration map, the device map, and the
instance type (the Go field `Type`, renamed because `type` is reserved). -/
structure InstancePlacementReq where
  config : List (String × String)
  devices : List (String × List (String × String))
  itype : InstanceType
deriving DecidableEq, Repr

/-- Go map indexing with the zero value: `m[k]` is "" when `k` is absent. -/
def configGet (m : List (String × String)) (k : String) : String :=
  (m.lookup k).getD ""

/-- Modelled from the spec: `instance.GetRootDiskDevice` is not under src/.
The spec says the resolver "locates the request's root-disk device" and
leaves the field unconstrained "if no device … resolves"; in the repository
the root-disk device is the disk-typed device mounted at the filesystem
root, and the lookup fails when no such device exists. -/
def getRootDiskDevice (devices : List (String × List (String × String))) :
    Except String (List (String × String)) :=
  match devices.find? (fun d => configGet d.2 "type" == "disk" && configGet d.2 "path" == "/") with
  | some d => .ok d.2
  | none => .error "No root device could be found"

/-- CPU stage of `getInstanceResourcesFunc` (part_000 lines 161-177): a
plain integer is used directly, otherwise the cpuset cardinality; an absent
key gives the VM default core count for virtual machines and leaves CPU
unconstrained (the uint64 zero value) otherwise. -/
def resolveCPUCores (req : InstancePlacementReq) : Except String Nat :=
  if configGet req.config "limits.cpu" ≠ "" then
    match parseUint64 (configGet req.config "limits.cpu") with
    | .ok n => .ok n
    | .error _ =>
      match parseCpuset (configGet req.config "limits.cpu") with
      | .ok pinnedCPUs => .ok pinnedCPUs.length
      | .error e => .error ("Failed parsing instance resources limits.cpu: " ++ e)
  else if req.itype = .vm then
    .ok qemudefaultCPUCores
  else
    .ok 0

/-- The memory-limit string after the VM default is applied (part_000 lines
180-185). -/
def resolvedMemoryStr (req : InstancePlacementReq) : String :=
  if req.itype = .vm ∧ configGet req.config "limits.memory" = "" then qemudefaultMemSize
  else configGet req.config "limits.memory"

/-- Memory stage of `getInstanceResourcesFunc` (part_000 lines 179-194). -/
def resolveMemorySize (req : InstancePlacementReq) : Except String Nat :=
  if resolvedMemoryStr req ≠ "" then
    match parseByteSizeString (resolvedMemoryStr req) with
    | .ok n => .ok n
    | .error e => .error ("Failed parsing instance resources limits.memory: " ++ e)
  else .ok 0

/-- The root-disk size string after the VM default is applied (part_000
lines 199-204). -/
def resolvedRootDiskSizeStr (req : InstancePlacementReq)
    (rootDiskConfig : List (String × String)) : String :=
  if req.itype = .vm ∧ configGet rootDiskConfig "size" = "" then defaultBlockSize
  else configGet rootDiskConfig "size"

/-- Root-disk stage of `getInstanceResourcesFunc` (part_000 lines 196-214):
a failed root-device lookup skips the whole stage (the `err == nil` guard),
leaving the field unconstrained. -/
def resolveRootDiskSize (req : InstancePlacementReq) : Except String Nat :=
  match getRootDiskDevice req.devices with
  | .error _ => .ok 0
  | .ok rootDiskConfig =>
    if resolvedRootDiskSizeStr req rootDiskConfig ≠ "" then
      match parseByteSizeString (resolvedRootDiskSizeStr req rootDiskConfig) with
      | .ok n => .ok n
      | .error e => .error ("Failed parsing instance resources root disk size: " ++ e)
    else .ok 0

/-- `apiScriptlet.InstanceResources`: resolved core count, memory size and
root-disk size; the Go zero value 0 encodes "unconstrained". -/
structure InstanceResources where
  cpuCores : Nat
  memorySize : Nat
  rootDiskSize : Nat
deriving DecidableEq, Repr

/-- `getInstanceResourcesFunc` (part_000 lines 157-222): the three stages
in source order; the first failing stage's error is the call's error.
Marshalling of the result record is modelled as the identity. -/
def getInstanceResources (req : InstancePlacementReq) : Except String InstanceResources :=
  match resolveCPUCores req with
  | .error e => .error e
  | .ok cpu =>
    match resolveMemorySize req with
    | .error e => .error e
    | .ok mem =>
      match resolveRootDiskSize req with
      | .error e => .error e
      | .ok disk => .ok ⟨cpu, mem, disk⟩

/-- One observable step of a placement script, as seen by the engine: a
`set_target(name)` call, a step that succeeds without touching the
selection (logging, lookups, plain statements), or a step that raises an
error (a failing builtin or a script-authored failure). -/
inductive ScriptOp where
  | setTargetOp (memberName : String)
  | otherOp
  | failOp (msg : String)
deriving DecidableEq, Repr

/-- Execution of the entry point's body over the shared `targetMember`
closure variable: steps run in order; a step that returns an error to the
interpreter aborts the script with that error. -/
def runScript (candidateMembers : List NodeInfo) :
    List ScriptOp → Option Nat → Option Nat × Option String
  | [], targetMember => (targetMember, none)
  | .setTargetOp name :: rest, targetMember =>
    match setTargetCall candidateMembers targetMember name with
    | (targetMember', none) => runScript candidateMembers rest targetMember'
    | (targetMember', some e) => (targetMember', some e)
  | .otherOp :: rest, targetMember => runScript candidateMembers rest targetMember
  | .failOp msg :: _, targetMember => (targetMember, some msg)

/-- The named arguments of the entry-point invocation (part_000 lines
548-556): the marshalled request under "request" and the marshalled,
enriched candidate list under "candidate_members". -/
def entryPointCallKwargs (requestVal candidateMembersVal : StarValue) :
    List (String × StarValue) :=
  [("request", requestVal), ("candidate_members", candidateMembersVal)]

/-- One invocation of `InstancePlacementRun`, with the outcome of each
fallible host stage made explicit in source order: the raft-node read
(lines 445-455), the candidate-snapshot rendering (lines 458-496), the
compiled-program load (line 514), `prog.Init` (line 524), presence of the
`instance_placement` global (line 532), the two input marshalling steps
(lines 537-545), the entry point's body, and the value it returns. -/
structure RunInput where
  candidateMembers : List NodeInfo
  raftNodesErr : Option String
  snapshotErr : Option String
  programErr : Option String
  initErr : Option String
  hasEntryPoint : Bool
  reqMarshalErr : Option String
  candMarshalErr : Option String
  script : List ScriptOp
  entryReturn : StarValue
deriving Repr

/-- `InstancePlacementRun` (part_000 lines 26-566) as a function of one
invocation's stage outcomes, returning the Go pair
`(*db.NodeInfo, error)`: the selected candidate as an index into
`candidateMembers` (the pointer identity), and the error. Every error
return site in the source returns a nil member, which the model mirrors
literally. -/
def InstancePlacementRun (inp : RunInput) : Option Nat × Option String :=
  match inp.raftNodesErr with
  | some e => (none, some e)
  | none =>
  match inp.snapshotErr with
  | some e => (none, some e)
  | none =>
  match inp.programErr with
  | some e => (none, some e)
  | none =>
  match inp.initErr with
  | some e => (none, some ("Failed initializing: " ++ e))
  | none =>
  if inp.hasEntryPoint = false then
    (none, some "Scriptlet missing instance_placement function")
  else
  match inp.reqMarshalErr with
  | some e => (none, some ("Marshalling request failed: " ++ e))
  | none =>
  match inp.candMarshalErr with
  | some e => (none, some ("Marshalling candidate members failed: " ++ e))
  | none =>
  match runScript inp.candidateMembers inp.script none with
  | (_, some e) => (none, some ("Failed to run: " ++ e))
  | (targetMember, none) =>
    if inp.entryReturn ≠ .noneValue then
      (none, some "Failed with unexpected return value")
    else
      (targetMember, none)

/-- All host stages before the entry-point call succeed and the entry
point is present. -/
def stagesOk (inp : RunInput) : Prop :=
  inp.raftNodesErr = none ∧ inp.snapshotErr = none ∧ inp.programErr = none ∧
  inp.initErr = none ∧ inp.hasEntryPoint = true ∧ inp.reqMarshalErr = none ∧
  inp.candMarshalErr = none

theorem InstancePlacementRun_stagesOk {inp : RunInput} (h : stagesOk inp) :
    InstancePlacementRun inp =
      match runScript inp.candidateMembers inp.script none with
      | (_, some e) => (none, some ("Failed to run: " ++ e))
      | (targetMember, none) =>
        if inp.entryReturn ≠ .noneValue then
          (none, some "Failed with unexpected return value")
        else
          (targetMember, none) := by
  obtain ⟨h1, h2, h3, h4, h5, h6, h7⟩ := h
  simp [InstancePlacementRun, h1, h2, h3, h4, h5, h6, h7]

theorem setTargetCall_fst_lt {cands : List NodeInfo} {tm : Option Nat} {name : String}
    (htm : ∀ j, tm = some j → j < cands.length) :
    ∀ j, (setTargetCall cands tm name).1 = some j → j < cands.length := by
  intro j h
  cases hf : findMemberIdx name cands with
  | some i =>
    simp [setTargetCall, hf] at h
    exact h ▸ findMemberIdx_lt hf
  | none =>
    cases htmv : tm with
    | none => simp [setTargetCall, hf, htmv] at h
    | some k =>
      simp [setTargetCall, hf, htmv] at h
      exact h ▸ htm k htmv

theorem runScript_fst_lt {cands : List NodeInfo} :
    ∀ (ops : List ScriptOp) (tm : Option Nat),
      (∀ j, tm = some j → j < cands.length) →
      ∀ j, (runScript cands ops tm).1 = some j → j < cands.length := by
  intro ops
  induction ops with
  | nil =>
    intro tm htm j h
    simp [runScript] at h
    exact htm j h
  | cons op rest ih =>
    intro tm htm j h
    cases op with
    | setTargetOp name =>
      rcases hst : setTargetCall cands tm name with ⟨tm', e⟩
      have h1 : (setTargetCall cands tm name).1 = tm' := by rw [hst]
      simp only [runScript, hst] at h
      cases e with
      | none =>
        exact ih tm' (fun k hk => setTargetCall_fst_lt htm k (h1.trans hk)) j h
      | some msg =>
        simp at h
        exact setTargetCall_fst_lt htm j (h1.trans h)
    | otherOp =>
      simp only [runScript] at h
      exact ih tm htm j h
    | failOp msg =>
      simp [runScript] at h
      exact htm j h

theorem runScript_append (cands : List NodeInfo) :
    ∀ (xs ys : List ScriptOp) (tm : Option Nat),
      runScript cands (xs ++ ys) tm =
        match runScript cands xs tm with
        | (tm', none) => runScript cands ys tm'
        | (tm', some e) => (tm', some e) := by
  intro xs
  induction xs with
  | nil => intro ys tm; simp [runScript]
  | cons op rest ih =>
    intro ys tm
    cases op with
    | setTargetOp name =>
      rcases hst : setTargetCall cands tm name with ⟨tm', e⟩
      simp only [List.cons_append, runScript, hst]
      cases e <;> simp [ih]
    | otherOp => simp only [List.cons_append, runScript]; exact ih ys tm
    | failOp msg => simp [runScript]

theorem InstancePlacementRun_fst_lt (inp : RunInput) :
    ∀ j, (InstancePlacementRun inp).1 = some j → j < inp.candidateMembers.length := by
  obtain ⟨cands, r, s, p, ini, hep, rm, cm, script, ret⟩ := inp
  intro j h
  simp only [InstancePlacementRun] at h
  cases r with
  | some e => simp at h
  | none =>
  cases s with
  | some e => simp at h
  | none =>
  cases p with
  | some e => simp at h
  | none =>
  cases ini with
  | some e => simp at h
  | none =>
  cases hep with
  | false => simp at h
  | true =>
  cases rm with
  | some e => simp at h
  | none =>
  cases cm with
  | some e => simp at h
  | none =>
  rcases hrs : runScript cands script none with ⟨tm, e⟩
  simp only [hrs] at h
  cases e with
  | some msg => simp at h
  | none =>
    by_cases hret : ret = StarValue.noneValue
    · simp [hret] at h
      have h1 : (runScript cands script none).1 = some j := by rw [hrs]; exact h
      exact runScript_fst_lt script none (by intro k hk; cases hk) j h1
    · simp [hret] at h

/-- C1: a `set_target(name)` call whose name is the Name of a candidate
records exactly that candidate — the first match, by identity: the index
into the candidate list passed to this invocation — and a run whose script
performs that call and otherwise completes returns precisely that element
of the candidate set. -/
theorem C1_set_target_returns_identical_member
    (cands : List NodeInfo) (tm : Option Nat) (name : String) (i : Nat)
    (hfind : findMemberIdx name cands = some i)
    (inp : RunInput)
    (hin : inp.candidateMembers = cands)
    (hstages : stagesOk inp)
    (hscript : inp.script = [.setTargetOp name])
    (hret : inp.entryReturn = .noneValue) :
    setTargetCall cands tm name = (some i, none) ∧
    InstancePlacementRun inp = (some i, none) ∧
    ∃ h : i < cands.length, (cands.get ⟨i, h⟩).name = name := by
  refine ⟨?_, ?_, findMemberIdx_lt hfind, findMemberIdx_name hfind⟩
  · simp [setTargetCall, hfind]
  · rw [InstancePlacementRun_stagesOk hstages, hin, hscript]
    simp [runScript, setTargetCall, hfind, hret]

/-- C1 witness: two candidates, script `set_target("beta")`; the run
returns index 1, the identity of the second candidate. -/
theorem C1_witness :
    setTargetCall [⟨"alpha", "10.0.0.1"⟩, ⟨"beta", "10.0.0.2"⟩] none "beta" = (some 1, none) ∧
    InstancePlacementRun
      ⟨[⟨"alpha", "10.0.0.1"⟩, ⟨"beta", "10.0.0.2"⟩], none, none, none, none, true,
        none, none, [.setTargetOp "beta"], .noneValue⟩ = (some 1, none) ∧
    ∃ h : 1 < ([⟨"alpha", "10.0.0.1"⟩, ⟨"beta", "10.0.0.2"⟩] : List NodeInfo).length,
      (([⟨"alpha", "10.0.0.1"⟩, ⟨"beta", "10.0.0.2"⟩] : List NodeInfo).get ⟨1, h⟩).name = "beta" :=
  C1_set_target_returns_identical_member
    [⟨"alpha", "10.0.0.1"⟩, ⟨"beta", "10.0.0.2"⟩] none "beta" 1 (by decide)
    ⟨[⟨"alpha", "10.0.0.1"⟩, ⟨"beta", "10.0.0.2"⟩], none, none, none, none, true,
      none, none, [.setTargetOp "beta"], .noneValue⟩
    rfl ⟨rfl, rfl, rfl, rfl, rfl, rfl, rfl⟩ rfl rfl

/-- Candidate set for the C2 counterexample. -/
def c2Cands : List NodeInfo := [⟨"alpha", "10.0.0.1"⟩]

/-- Run input for the C2 counterexample: a valid `set_target("alpha")`
followed by `set_target("zeta")` with "zeta" outside the candidate set. -/
def c2Input : RunInput :=
  ⟨c2Cands, none, none, none, none, true, none, none,
    [.setTargetOp "alpha", .setTargetOp "zeta"], .noneValue⟩

/-- C2 counterexample: the script calls `set_target("zeta")` with "zeta"
not the Name of any candidate, yet — because an earlier call already
recorded a selection — that call returns no error and the run's final
result still carries a selection, refuting the claim that every
unknown-name `set_target` call fails and leaves the run with no
selection. -/
theorem C2_counterexample :
    (∀ m ∈ c2Cands, m.name ≠ "zeta") ∧
    ScriptOp.setTargetOp "zeta" ∈ c2Input.script ∧
    setTargetCall c2Cands (some 0) "zeta" = (some 0, none) ∧
    InstancePlacementRun c2Input = (some 0, none) := by
  refine ⟨by decide, by decide, by decide, by decide⟩

/-- C2 (amended): while no selection has been recorded yet, a `set_target`
call with a name outside the candidate set returns an error to the
interpreter, and a run whose script reaches such a call with no selection
recorded fails and returns no member; in every run the returned member,
when present, is an element of the candidate set — never fabricated from
the unknown name. -/
theorem C2_unknown_name_no_selection
    (cands : List NodeInfo) (name : String)
    (hunk : findMemberIdx name cands = none)
    (inp : RunInput) (pre rest : List ScriptOp)
    (hin : inp.candidateMembers = cands)
    (hstages : stagesOk inp)
    (hscript : inp.script = pre ++ ScriptOp.setTargetOp name :: rest)
    (hpre : runScript cands pre none = (none, none)) :
    setTargetCall cands none name = (none, some ("Invalid member name: " ++ name)) ∧
    InstancePlacementRun inp =
      (none, some ("Failed to run: " ++ ("Invalid member name: " ++ name))) ∧
    (∀ (inp' : RunInput) (j : Nat), (InstancePlacementRun inp').1 = some j →
      j < inp'.candidateMembers.length) := by
  refine ⟨by simp [setTargetCall, hunk], ?_, fun inp' j h => InstancePlacementRun_fst_lt inp' j h⟩
  rw [InstancePlacementRun_stagesOk hstages, hin, hscript, runScript_append, hpre]
  simp [runScript, setTargetCall, hunk]

/-- C2 witness: one candidate "alpha", script `set_target("zeta")` with no
prior selection; the call errors and the run returns no member. -/
theorem C2_witness :
    setTargetCall c2Cands none "zeta" = (none, some ("Invalid member name: " ++ "zeta")) ∧
    InstancePlacementRun
      ⟨c2Cands, none, none, none, none, true, none, none,
        [.setTargetOp "zeta"], .noneValue⟩ =
      (none, some ("Failed to run: " ++ ("Invalid member name: " ++ "zeta"))) ∧
    (∀ (inp' : RunInput) (j : Nat), (InstancePlacementRun inp').1 = some j →
      j < inp'.candidateMembers.length) :=
  C2_unknown_name_no_selection c2Cands "zeta" (by decide)
    ⟨c2Cands, none, none, none, none, true, none, none,
      [.setTargetOp "zeta"], .noneValue⟩
    [] [] rfl ⟨rfl, rfl, rfl, rfl, rfl, rfl, rfl⟩ rfl rfl

/-- C9: once a valid selection is recorded, a later `set_target` with an
unknown name returns no-value without an error and leaves the selection
unchanged; the unknown-name error branch fires only while no selection has
been recorded (and the name is unknown); and a later `set_target` with a
valid name replaces the selection. -/
theorem C9_later_set_target_calls
    (cands : List NodeInfo) (j : Nat) (name : String) :
    (findMemberIdx name cands = none →
      setTargetCall cands (some j) name = (some j, none)) ∧
    (∀ tm e, (setTargetCall cands tm name).2 = some e →
      tm = none ∧ findMemberIdx name cands = none) ∧
    (∀ i, findMemberIdx name cands = some i →
      setTargetCall cands (some j) name = (some i, none)) := by
  refine ⟨fun hunk => by simp [setTargetCall, hunk], ?_, fun i hi => by simp [setTargetCall, hi]⟩
  intro tm e h
  cases hf : findMemberIdx name cands with
  | some i => simp [setTargetCall, hf] at h
  | none =>
    cases htm : tm with
    | none => exact ⟨rfl, rfl⟩
    | some k => simp [setTargetCall, hf, htm] at h

/-- C9 witness: with candidates "alpha" and "beta" and selection index 0
recorded, `set_target("zeta")` succeeds leaving index 0, and
`set_target("beta")` replaces the selection with index 1. -/
theorem C9_witness :
    setTargetCall [⟨"alpha", "10.0.0.1"⟩, ⟨"beta", "10.0.0.2"⟩] (some 0) "zeta" =
      (some 0, none) ∧
    setTargetCall [⟨"alpha", "10.0.0.1"⟩, ⟨"beta", "10.0.0.2"⟩] (some 0) "beta" =
      (some 1, none) :=
  ⟨(C9_later_set_target_calls [⟨"alpha", "10.0.0.1"⟩, ⟨"beta", "10.0.0.2"⟩] 0 "zeta").1
      (by decide),
   (C9_later_set_target_calls [⟨"alpha", "10.0.0.1"⟩, ⟨"beta", "10.0.0.2"⟩] 0 "beta").2.2 1
      (by decide)⟩

/-- C10: whenever `InstancePlacementRun` returns a non-nil error — at any
of its error return sites, including a script error raised after an
earlier `set_target` recorded a selection — the returned member is nil. -/
theorem C10_error_implies_nil_member
    (inp : RunInput) (e : String)
    (h : (InstancePlacementRun inp).2 = some e) :
    (InstancePlacementRun inp).1 = none := by
  obtain ⟨cands, r, s, p, ini, hep, rm, cm, script, ret⟩ := inp
  simp only [InstancePlacementRun] at h ⊢
  cases r with
  | some e' => rfl
  | none =>
  cases s with
  | some e' => rfl
  | none =>
  cases p with
  | some e' => rfl
  | none =>
  cases ini with
  | some e' => rfl
  | none =>
  cases hep with
  | false => rfl
  | true =>
  cases rm with
  | some e' => rfl
  | none =>
  cases cm with
  | some e' => rfl
  | none =>
  rcases hrs : runScript cands script none with ⟨tm, er⟩
  simp only [hrs] at h ⊢
  cases er with
  | some msg => rfl
  | none =>
    by_cases hret : ret = StarValue.noneValue
    · simp [hret] at h
    · simp [hret]

/-- C10 witness: a script that records the valid selection "alpha" and
then fails; the run reports the script error and returns a nil member,
not the recorded selection. -/
theorem C10_witness :
    (InstancePlacementRun
      ⟨c2Cands, none, none, none, none, true, none, none,
        [.setTargetOp "alpha", .failOp "boom"], .noneValue⟩).2 =
      some ("Failed to run: " ++ "boom") ∧
    (InstancePlacementRun
      ⟨c2Cands, none, none, none, none, true, none, none,
        [.setTargetOp "alpha", .failOp "boom"], .noneValue⟩).1 = none :=
  ⟨by decide,
   C10_error_implies_nil_member
     ⟨c2Cands, none, none, none, none, true, none, none,
       [.setTargetOp "alpha", .failOp "boom"], .noneValue⟩
     ("Failed to run: " ++ "boom") (by decide)⟩

/-- C3: `limits.cpu = "4"` resolves to 4 CPU cores via the plain-integer
path, and `limits.cpu = "0,2,4,6"` also resolves to 4 — the cardinality of
the parsed CPU-identifier set, not a value derived from the literal
string. -/
theorem C3_cpu_cores_cardinality
    (req req' : InstancePlacementReq)
    (h4 : configGet req.config "limits.cpu" = "4")
    (hset : configGet req'.config "limits.cpu" = "0,2,4,6") :
    resolveCPUCores req = .ok 4 ∧
    resolveCPUCores req' = .ok 4 ∧
    parseCpuset "0,2,4,6" = .ok [0, 2, 4, 6] ∧
    (∀ res, getInstanceResources req' = .ok res → res.cpuCores = 4) := by
  have h2 : resolveCPUCores req' = .ok 4 := by
    unfold resolveCPUCores
    rw [hset]
    rfl
  refine ⟨?_, h2, rfl, ?_⟩
  · unfold resolveCPUCores
    rw [h4]
    rfl
  · intro res hres
    unfold getInstanceResources at hres
    rw [h2] at hres
    cases hm : resolveMemorySize req' with
    | error e => rw [hm] at hres; cases hres
    | ok mem =>
      rw [hm] at hres
      cases hd : resolveRootDiskSize req' with
      | error e => rw [hd] at hres; cases hres
      | ok disk =>
        rw [hd] at hres
        cases hres
        rfl

/-- C3 witness: concrete requests with `limits.cpu = "4"` and
`limits.cpu = "0,2,4,6"`. -/
theorem C3_witness :
    resolveCPUCores ⟨[("limits.cpu", "4")], [], .container⟩ = .ok 4 ∧
    resolveCPUCores ⟨[("limits.cpu", "0,2,4,6")], [], .container⟩ = .ok 4 ∧
    parseCpuset "0,2,4,6" = .ok [0, 2, 4, 6] ∧
    (∀ res, getInstanceResources ⟨[("limits.cpu", "0,2,4,6")], [], .container⟩ = .ok res →
      res.cpuCores = 4) :=
  C3_cpu_cores_cardinality
    ⟨[("limits.cpu", "4")], [], .container⟩
    ⟨[("limits.cpu", "0,2,4,6")], [], .container⟩
    (by decide) (by decide)

/-- Virtual-machine request with no configuration keys and no devices,
used to refute C4. -/
def c4VMReq : InstancePlacementReq := ⟨[], [], .vm⟩

/-- C4 counterexample: a virtual-machine request with no `limits.cpu`, no
`limits.memory` and no root-disk size key (it has no devices at all)
resolves CPU and memory to the VM defaults but leaves the root disk
unconstrained (0), not the default block size, refuting the claim that all
three fields get type-specific defaults for every such request. -/
theorem C4_counterexample :
    getInstanceResources c4VMReq = .ok ⟨1, 1073741824, 0⟩ ∧
    parseByteSizeString defaultBlockSize = .ok 10737418240 ∧
    (0 : Nat) ≠ 10737418240 := by
  refine ⟨rfl, rfl, by decide⟩

/-- C4 (amended): with no CPU, memory or root-disk size keys, a container
request resolves all three fields as unconstrained; a virtual-machine
request resolves the VM defaults for CPU and memory in every case, the
default block size for the root disk when a root-disk device exists, and
an unconstrained root disk when no root-disk device exists. -/
theorem C4_absent_key_defaults
    (req : InstancePlacementReq)
    (hcpu : configGet req.config "limits.cpu" = "")
    (hmem : configGet req.config "limits.memory" = "")
    (hsize : ∀ conf, getRootDiskDevice req.devices = .ok conf → configGet conf "size" = "") :
    (req.itype = .container → getInstanceResources req = .ok ⟨0, 0, 0⟩) ∧
    (req.itype = .vm → ∀ conf, getRootDiskDevice req.devices = .ok conf →
      getInstanceResources req = .ok ⟨1, 1073741824, 10737418240⟩) ∧
    (req.itype = .vm → ∀ e, getRootDiskDevice req.devices = .error e →
      getInstanceResources req = .ok ⟨1, 1073741824, 0⟩) := by
  refine ⟨fun hc => ?_, fun hv conf hconf => ?_, fun hv e he => ?_⟩
  · have h1 : resolveCPUCores req = .ok 0 := by
      unfold resolveCPUCores
      rw [hcpu, hc]
      rfl
    have h2 : resolveMemorySize req = .ok 0 := by
      unfold resolveMemorySize resolvedMemoryStr
      rw [hmem, hc]
      rfl
    have h3 : resolveRootDiskSize req = .ok 0 := by
      cases hd : getRootDiskDevice req.devices with
      | error e => unfold resolveRootDiskSize; rw [hd]
      | ok conf =>
        have hstr : resolvedRootDiskSizeStr req conf = "" := by
          unfold resolvedRootDiskSizeStr
          rw [hc, hsize conf hd]
          rfl
        unfold resolveRootDiskSize
        rw [hd]
        dsimp only
        rw [hstr]
        rfl
    simp [getInstanceResources, h1, h2, h3]
  · have h1 : resolveCPUCores req = .ok 1 := by
      unfold resolveCPUCores
      rw [hcpu, hv]
      rfl
    have h2 : resolveMemorySize req = .ok 1073741824 := by
      unfold resolveMemorySize resolvedMemoryStr
      rw [hmem, hv]
      rfl
    have h3 : resolveRootDiskSize req = .ok 10737418240 := by
      have hstr : resolvedRootDiskSizeStr req conf = defaultBlockSize := by
        unfold resolvedRootDiskSizeStr
        rw [hv, hsize conf hconf]
        rfl
      unfold resolveRootDiskSize
      rw [hconf]
      dsimp only
      rw [hstr]
      rfl
    simp [getInstanceResources, h1, h2, h3]
  · have h1 : resolveCPUCores req = .ok 1 := by
      unfold resolveCPUCores
      rw [hcpu, hv]
      rfl
    have h2 : resolveMemorySize req = .ok 1073741824 := by
      unfold resolveMemorySize resolvedMemoryStr
      rw [hmem, hv]
      rfl
    have h3 : resolveRootDiskSize req = .ok 0 := by
      unfold resolveRootDiskSize
      rw [he]
    simp [getInstanceResources, h1, h2, h3]


/-- C4 witness: a key-less container request with a size-less root-disk
device, a key-less virtual-machine request with the same device, and a
key-less virtual-machine request with no devices. -/
theorem C4_witness :
    getInstanceResources ⟨[], [("root", [("type", "disk"), ("path", "/")])], .container⟩ =
      .ok ⟨0, 0, 0⟩ ∧
    getInstanceResources ⟨[], [("root", [("type", "disk"), ("path", "/")])], .vm⟩ =
      .ok ⟨1, 1073741824, 10737418240⟩ ∧
    getInstanceResources c4VMReq = .ok ⟨1, 1073741824, 0⟩ :=
  ⟨(C4_absent_key_defaults ⟨[], [("root", [("type", "disk"), ("path", "/")])], .container⟩
      rfl rfl (by intro conf hconf; injection hconf with h; subst h; rfl)).1 rfl,
   (C4_absent_key_defaults ⟨[], [("root", [("type", "disk"), ("path", "/")])], .vm⟩
      rfl rfl (by intro conf hconf; injection hconf with h; subst h; rfl)).2.1 rfl
      [("type", "disk"), ("path", "/")] rfl,
   (C4_absent_key_defaults c4VMReq rfl rfl
      (by intro conf hconf; exact Except.noConfusion hconf)).2.2 rfl
      "No root device could be found" rfl⟩

/-- C5: a `limits.cpu` value that parses neither as a plain integer nor as
a CPU-identifier set, or a resolved (nonempty) memory or root-disk size
string that is not a valid byte-size string, fails the whole call with an
error naming the offending key; the field is never silently left
unconstrained. -/
theorem C5_parse_failures_fatal
    (req : InstancePlacementReq) :
    (∀ e1 e2, configGet req.config "limits.cpu" ≠ "" →
      parseUint64 (configGet req.config "limits.cpu") = .error e1 →
      parseCpuset (configGet req.config "limits.cpu") = .error e2 →
      getInstanceResources req =
        .error ("Failed parsing instance resources limits.cpu: " ++ e2)) ∧
    (∀ cpu e, resolveCPUCores req = .ok cpu →
      resolvedMemoryStr req ≠ "" →
      parseByteSizeString (resolvedMemoryStr req) = .error e →
      getInstanceResources req =
        .error ("Failed parsing instance resources limits.memory: " ++ e)) ∧
    (∀ cpu mem conf e, resolveCPUCores req = .ok cpu →
      resolveMemorySize req = .ok mem →
      getRootDiskDevice req.devices = .ok conf →
      resolvedRootDiskSizeStr req conf ≠ "" →
      parseByteSizeString (resolvedRootDiskSizeStr req conf) = .error e →
      getInstanceResources req =
        .error ("Failed parsing instance resources root disk size: " ++ e)) := by
  refine ⟨fun e1 e2 hne hu hc => ?_, fun cpu e hcpu hne hp => ?_,
    fun cpu mem conf e hcpu hmem hconf hne hp => ?_⟩
  · have h1 : resolveCPUCores req =
        .error ("Failed parsing instance resources limits.cpu: " ++ e2) := by
      unfold resolveCPUCores
      rw [if_pos hne, hu, hc]
    unfold getInstanceResources
    rw [h1]
  · have h2 : resolveMemorySize req =
        .error ("Failed parsing instance resources limits.memory: " ++ e) := by
      unfold resolveMemorySize
      rw [if_pos hne, hp]
    unfold getInstanceResources
    rw [hcpu, h2]
  · have h3 : resolveRootDiskSize req =
        .error ("Failed parsing instance resources root disk size: " ++ e) := by
      unfold resolveRootDiskSize
      rw [hconf]
      dsimp only
      rw [if_pos hne, hp]
    unfold getInstanceResources
    rw [hcpu, hmem, h3]

/-- C5 witness: `limits.cpu = "4x"` fails both numeric parses fatally;
`limits.memory = "4z"` and a root-disk device with `size = "4q"` fail the
byte-size parse fatally, each error naming its key. -/
theorem C5_witness :
    getInstanceResources ⟨[("limits.cpu", "4x")], [], .container⟩ =
      .error ("Failed parsing instance resources limits.cpu: " ++ "invalid cpuset value") ∧
    getInstanceResources ⟨[("limits.memory", "4z")], [], .container⟩ =
      .error ("Failed parsing instance resources limits.memory: " ++ ("Invalid value: " ++ "4z")) ∧
    getInstanceResources
      ⟨[], [("root", [("type", "disk"), ("path", "/"), ("size", "4q")])], .container⟩ =
      .error ("Failed parsing instance resources root disk size: " ++ ("Invalid value: " ++ "4q")) :=
  ⟨(C5_parse_failures_fatal ⟨[("limits.cpu", "4x")], [], .container⟩).1
      "invalid syntax" "invalid cpuset value" (by decide) rfl rfl,
   (C5_parse_failures_fatal ⟨[("limits.memory", "4z")], [], .container⟩).2.1
      0 ("Invalid value: " ++ "4z") rfl (by decide) rfl,
   (C5_parse_failures_fatal
      ⟨[], [("root", [("type", "disk"), ("path", "/"), ("size", "4q")])], .container⟩).2.2
      0 0 [("type", "disk"), ("path", "/"), ("size", "4q")] ("Invalid value: " ++ "4q")
      rfl rfl rfl (by decide) rfl⟩

/-- C6: a compiled program whose globals lack the `instance_placement`
entry point fails with the missing-entry-point error; an entry point whose
body completes but returns a value other than `None` fails with the
unexpected-return-value error; and the entry-point invocation passes
exactly the two named arguments `request` and `candidate_members`. -/
theorem C6_entry_point_contract
    (inp : RunInput) :
    (inp.raftNodesErr = none → inp.snapshotErr = none → inp.programErr = none →
      inp.initErr = none → inp.hasEntryPoint = false →
      InstancePlacementRun inp = (none, some "Scriptlet missing instance_placement function")) ∧
    (∀ tm, stagesOk inp → runScript inp.candidateMembers inp.script none = (tm, none) →
      inp.entryReturn ≠ .noneValue →
      InstancePlacementRun inp = (none, some "Failed with unexpected return value")) ∧
    (∀ rv cv, (entryPointCallKwargs rv cv).map Prod.fst = ["request", "candidate_members"]) := by
  refine ⟨fun h1 h2 h3 h4 h5 => ?_, fun tm hst hrs hret => ?_, fun rv cv => rfl⟩
  · simp [InstancePlacementRun, h1, h2, h3, h4, h5]
  · rw [InstancePlacementRun_stagesOk hst, hrs]
    simp [hret]

/-- C6 witness: a run whose program lacks the entry point, and a run whose
entry point returns the string "x" after an empty body. -/
theorem C6_witness :
    InstancePlacementRun
      ⟨[], none, none, none, none, false, none, none, [], .noneValue⟩ =
      (none, some "Scriptlet missing instance_placement function") ∧
    InstancePlacementRun
      ⟨[], none, none, none, none, true, none, none, [], .str "x"⟩ =
      (none, some "Failed with unexpected return value") ∧
    (entryPointCallKwargs (.str "a") (.str "b")).map Prod.fst =
      ["request", "candidate_members"] :=
  ⟨(C6_entry_point_contract
      ⟨[], none, none, none, none, false, none, none, [], .noneValue⟩).1
      rfl rfl rfl rfl rfl,
   (C6_entry_point_contract
      ⟨[], none, none, none, none, true, none, none, [], .str "x"⟩).2.1
      none ⟨rfl, rfl, rfl, rfl, rfl, rfl, rfl⟩ rfl (by intro h; cases h),
   (C6_entry_point_contract
      ⟨[], none, none, none, none, true, none, none, [], .str "x"⟩).2.2
      (.str "a") (.str "b")⟩

/-- C7: for both member-lookup builtins, a name equal to the local
server's is read locally; otherwise a name matching a candidate is read
through a remote connection to that candidate's address, with connection
and remote-call failures passed through as fatal errors; a name matching
neither yields the error-string value "Invalid member name" with no
error. -/
theorem C7_member_lookup_dispatch
    (env : MemberEnv) (cands : List NodeInfo) (name : String) :
    (name = env.serverName →
      getClusterMemberResources env cands name = env.localResources.map .resourcesVal ∧
      getClusterMemberState env cands name = env.localState.map .stateVal) ∧
    (name ≠ env.serverName → ∀ i m, findMemberIdx name cands = some i →
      cands.get? i = some m →
      getClusterMemberResources env cands name =
        (match env.connect m.address with
         | .error e => .error e
         | .ok _ => (env.remoteResources m.address).map .resourcesVal) ∧
      getClusterMemberState env cands name =
        (match env.connect m.address with
         | .error e => .error e
         | .ok _ => (env.remoteState m.address).map .stateVal)) ∧
    (name ≠ env.serverName → findMemberIdx name cands = none →
      getClusterMemberResources env cands name = .ok (.str "Invalid member name") ∧
      getClusterMemberState env cands name = .ok (.str "Invalid member name")) := by
  refine ⟨fun hl => ?_, fun hnl i m hi hm => ?_, fun hnl hunk => ?_⟩
  · constructor
    · cases hres : env.localResources <;>
        simp [getClusterMemberResources, hl, hres, Except.map]
    · cases hres : env.localState <;>
        simp [getClusterMemberState, hl, hres, Except.map]
  · rw [List.get?_eq_getElem?] at hm
    constructor
    · cases hc : env.connect m.address with
      | error e => simp [getClusterMemberResources, hnl, hi, hm, hc]
      | ok u =>
        cases hr : env.remoteResources m.address <;>
          simp [getClusterMemberResources, hnl, hi, hm, hc, hr, Except.map]
    · cases hc : env.connect m.address with
      | error e => simp [getClusterMemberState, hnl, hi, hm, hc]
      | ok u =>
        cases hr : env.remoteState m.address <;>
          simp [getClusterMemberState, hnl, hi, hm, hc, hr, Except.map]
  · constructor
    · simp [getClusterMemberResources, hnl, hunk]
    · simp [getClusterMemberState, hnl, hunk]

/-- Candidate set for the C7 witness. -/
def c7Cands : List NodeInfo := [⟨"alpha", "10.0.0.1"⟩, ⟨"beta", "10.0.0.2"⟩]

/-- Host environment for the C7 witness: local reads succeed and remote
reads succeed on every address. -/
def c7Env : MemberEnv :=
  ⟨"local", .ok ⟨1⟩, .ok ⟨2⟩, fun _ => .ok (), fun _ => .ok ⟨3⟩, fun _ => .ok ⟨4⟩⟩

/-- C7 witness: the local server name reads locally, the candidate "beta"
is read remotely through its own address, and the unknown name "zeta"
yields the error-string value. -/
theorem C7_witness :
    getClusterMemberResources c7Env c7Cands "local" =
      c7Env.localResources.map .resourcesVal ∧
    getClusterMemberState c7Env c7Cands "beta" =
      (match c7Env.connect "10.0.0.2" with
       | .error e => .error e
       | .ok _ => (c7Env.remoteState "10.0.0.2").map .stateVal) ∧
    getClusterMemberResources c7Env c7Cands "zeta" = .ok (.str "Invalid member name") :=
  ⟨((C7_member_lookup_dispatch c7Env c7Cands "local").1 rfl).1,
   ((C7_member_lookup_dispatch c7Env c7Cands "beta").2.1 (by decide) 1
      ⟨"beta", "10.0.0.2"⟩ (by decide) rfl).2,
   ((C7_member_lookup_dispatch c7Env c7Cands "zeta").2.2 (by decide) (by decide)).1⟩
